import Mathlib

/-!
# Verification of the Icarus game-engine core

Shallow embedding of the `GameOrchestrator` design code and the command-safety
helpers found in `src/docs/SPECIFICATION.md` of the Icarus repository, together
with theorems settling the behavioural claims about the sandbox executor, the
scoring path, the round loop and the phase table.

External effects (the Docker transport, the database sink, the two AI agents)
are modelled as explicit inputs: the outcome of one `exec_run` call is an
`ExecOutcome` value, agent decisions are plain records, and the database rows
written by the orchestrator are accumulated in an explicit `GameState`.
-/

namespace Icarus

/-- The dict returned by `GameOrchestrator.execute_in_container`:
`{'exit_code': ..., 'stdout': ..., 'stderr': ...}`. -/
structure CommandResult where
  exit_code : Int
  stdout : String
  stderr : String
deriving Repr, DecidableEq

/-- Outcome of one `container_obj.exec_run(...)` call as seen at the
`try`/`except` boundary of `execute_in_container`.  A successful call returns
the demuxed `(exit_code, (stdout?, stderr?))`; the three failure modes —
container not found, exec-transport error, timeout expiry — are raised as
exceptions carrying a message and reach the `except Exception` handler. -/
inductive ExecOutcome where
  | success (exit_code : Int) (stdout stderr : Option String)
  | notFound (msg : String)
  | transportErr (msg : String)
  | timeoutExpired (msg : String)
deriving Repr, DecidableEq

/-- `GameOrchestrator.execute_in_container(container, command)`: on a normal
return the two streams are decoded with `""` for a missing stream; any raised
exception is converted to `{'exit_code': -1, 'stdout': '', 'stderr': str(e)}`.
The `container` and `command` arguments select the call; the transport's
behaviour for that call is the `outcome` argument. -/
def execute_in_container (container command : String) (outcome : ExecOutcome) :
    CommandResult :=
  match container, command, outcome with
  | _, _, .success code out err => ⟨code, out.getD "", err.getD ""⟩
  | _, _, .notFound msg => ⟨-1, "", msg⟩
  | _, _, .transportErr msg => ⟨-1, "", msg⟩
  | _, _, .timeoutExpired msg => ⟨-1, "", msg⟩

/-- The JSON decision returned by `RedTeamAgent.decide_action`:
`reasoning`, `command`, and an optional `phase` key (the orchestrator reads it
with `decision.get('phase', 'unknown')`). -/
structure Decision where
  reasoning : String
  command : String
  phase : Option String
deriving Repr, DecidableEq

/-- The JSON decision returned by `BlueTeamAgent.decide_defense`; the
`defensive_action` field is either a bash command or the sentinel `'none'`. -/
structure Defense where
  threat_assessment : String
  reasoning : String
  defensive_action : String
deriving Repr, DecidableEq

/-- The dict returned by `GameOrchestrator.execute_red_team_turn`. -/
structure RedTurnData where
  observation : String
  reasoning : String
  action : String
  result : String
  success : Bool
  execution_time_ms : Nat
  phase : String
deriving Repr, DecidableEq

/-- The dict returned by `GameOrchestrator.execute_blue_team_turn`. -/
structure BlueTurnData where
  observation : String
  reasoning : String
  action : String
  result : String
  success : Bool
  execution_time_ms : Nat
deriving Repr, DecidableEq

/-- `GameOrchestrator.execute_red_team_turn`: executes the decided command in
the `red-kali` container and assembles the round dict.  The observation string
stands for `json.dumps(observation)`, `outcome` for the transport's behaviour
on this call, and `execution_time_ms` for the measured wall-clock time. -/
def execute_red_team_turn (observation : String) (decision : Decision)
    (outcome : ExecOutcome) (execution_time_ms : Nat) : RedTurnData :=
  let result := execute_in_container "red-kali" decision.command outcome
  { observation := observation
    reasoning := decision.reasoning
    action := decision.command
    result := result.stdout ++ result.stderr
    success := result.exit_code == 0
    execution_time_ms := execution_time_ms
    phase := decision.phase.getD "unknown" }

/-- `GameOrchestrator.execute_blue_team_turn`: starts from the default result
`{'stdout': '', 'stderr': '', 'exit_code': 0}` and `execution_time = 0`, and
only when `defense['defensive_action'] != 'none'` executes the action in the
`blue-target` container. -/
def execute_blue_team_turn (telemetry : String) (defense : Defense)
    (outcome : ExecOutcome) (measured_time_ms : Nat) : BlueTurnData :=
  let re :=
    if defense.defensive_action != "none" then
      (execute_in_container "blue-target" defense.defensive_action outcome,
        measured_time_ms)
    else ((⟨0, "", ""⟩ : CommandResult), 0)
  { observation := telemetry
    reasoning := defense.reasoning
    action := defense.defensive_action
    result := re.1.stdout ++ re.1.stderr
    success := re.1.exit_code == 0
    execution_time_ms := re.2 }

/-- The two competing sides; the code passes them as the strings
`'red'` / `'blue'`. -/
inductive Team where
  | red
  | blue
deriving Repr, DecidableEq

/-- The team string used in the `description` f-string of `award_points`. -/
def team_name : Team → String
  | .red => "red"
  | .blue => "blue"

/-- A row of the `events` table as written by `GameDatabase.record_event`. -/
structure EventRow where
  game_id : Nat
  round_id : Nat
  event_type : String
  team : Team
  description : String
  points : Int
deriving Repr, DecidableEq

/-- The orchestrator-visible database state for one game: the game row's two
cumulative scores and the append-only list of event rows. -/
structure GameState where
  game_id : Nat
  red_score : Int
  blue_score : Int
  events : List EventRow
deriving Repr, DecidableEq

/-- `GameDatabase.update_score(game_id, team, points)`: adds the delta to the
named side's cumulative score on the game row. -/
def update_score (s : GameState) (team : Team) (points : Int) : GameState :=
  match team with
  | .red => { s with red_score := s.red_score + points }
  | .blue => { s with blue_score := s.blue_score + points }

/-- `GameDatabase.record_event(...)`: appends one immutable event row. -/
def record_event (s : GameState) (round_id : Nat) (event_type : String)
    (team : Team) (description : String) (points : Int) : GameState :=
  { s with events :=
      s.events ++ [⟨s.game_id, round_id, event_type, team, description, points⟩] }

/-- `GameOrchestrator.award_points(team, points, event_type, round_id)`:
updates the score and records the event row together. -/
def award_points (s : GameState) (team : Team) (points : Int)
    (event_type : String) (round_id : Nat) : GameState :=
  record_event (update_score s team points) round_id event_type team
    (team_name team ++ " team: " ++ event_type) points

/-- The six detector predicates invoked by `evaluate_round`.  Their bodies do
not appear in the source (only their call sites and one test assertion), so
they are abstracted as arbitrary boolean predicates over the turn dicts they
are applied to. -/
structure Detectors where
  port_scan : RedTurnData → Bool
  service_identification : RedTurnData → Bool
  shell_access : RedTurnData → Bool
  attack_blocked : BlueTurnData → Bool
  ip_blocked : BlueTurnData → Bool
  service_down : BlueTurnData → Bool

/-- `GameOrchestrator.evaluate_round(round_id, red_result, blue_result)`: the
chain of detector checks, each awarding its fixed point value via
`award_points` when its detector fires. -/
def evaluate_round (D : Detectors) (s : GameState) (round_id : Nat)
    (red_result : RedTurnData) (blue_result : BlueTurnData) : GameState :=
  let s1 := if D.port_scan red_result then
    award_points s .red 10 "port_scan_complete" round_id else s
  let s2 := if D.service_identification red_result then
    award_points s1 .red 15 "service_identified" round_id else s1
  let s3 := if D.shell_access red_result then
    award_points s2 .red 100 "shell_access_gained" round_id else s2
  let s4 := if D.attack_blocked blue_result then
    award_points s3 .blue 50 "attack_blocked" round_id else s3
  let s5 := if D.ip_blocked blue_result then
    award_points s4 .blue 75 "attacker_ip_banned" round_id else s4
  let s6 := if D.service_down blue_result then
    award_points s5 .blue (-50) "service_down" round_id else s5
  s6

/-- A game's cumulative score for a side, as stored on the game row. -/
def score_of (s : GameState) : Team → Int
  | .red => s.red_score
  | .blue => s.blue_score

/-- Sum of the point deltas of the event rows recorded for a side. -/
def event_sum (s : GameState) (t : Team) : Int :=
  ((s.events.filter (fun e => e.team == t)).map (fun e => e.points)).sum

/-- The inputs consumed by one `evaluate_round` call in the loop. -/
structure RoundInput where
  D : Detectors
  round_id : Nat
  red_result : RedTurnData
  blue_result : BlueTurnData

/-- Folding a sequence of `evaluate_round` calls over the game state: the only
writers of scores and events in the loop. -/
def run_rounds (s : GameState) : List RoundInput → GameState
  | [] => s
  | i :: rest => run_rounds (evaluate_round i.D s i.round_id i.red_result i.blue_result) rest

/-- `GameDatabase.create_game` initializes both cumulative scores to 0
(schema default) with no event rows. -/
def initial_state (gid : Nat) : GameState := ⟨gid, 0, 0, []⟩

/-- A `Detectors` value whose predicates all fire; used to exhibit repeated
awards of one kind across distinct rounds. -/
def all_detect : Detectors :=
  ⟨fun _ => true, fun _ => true, fun _ => true,
   fun _ => true, fun _ => true, fun _ => true⟩

/-- A sample red-turn dict. -/
def sample_red : RedTurnData := ⟨"", "", "", "", false, 0, ""⟩

/-- A sample blue-turn dict. -/
def sample_blue : BlueTurnData := ⟨"", "", "", "", false, 0⟩

/-- The event rows appended to the database by one `evaluate_round` call, as a
function of the six detector verdicts (used to state the decomposition lemma
`evaluate_round_events`). -/
def new_events (b1 b2 b3 b4 b5 b6 : Bool) (gid rid : Nat) : List EventRow :=
  (if b1 then [⟨gid, rid, "port_scan_complete", .red,
    team_name .red ++ " team: " ++ "port_scan_complete", 10⟩] else []) ++
  (if b2 then [⟨gid, rid, "service_identified", .red,
    team_name .red ++ " team: " ++ "service_identified", 15⟩] else []) ++
  (if b3 then [⟨gid, rid, "shell_access_gained", .red,
    team_name .red ++ " team: " ++ "shell_access_gained", 100⟩] else []) ++
  (if b4 then [⟨gid, rid, "attack_blocked", .blue,
    team_name .blue ++ " team: " ++ "attack_blocked", 50⟩] else []) ++
  (if b5 then [⟨gid, rid, "attacker_ip_banned", .blue,
    team_name .blue ++ " team: " ++ "attacker_ip_banned", 75⟩] else []) ++
  (if b6 then [⟨gid, rid, "service_down", .blue,
    team_name .blue ++ " team: " ++ "service_down", -50⟩] else [])

/-- The four game phases of the phase-range table. -/
inductive Phase where
  | reconnaissance
  | initialAccess
  | privilegeEscalation
  | missionCompletion
deriving Repr, DecidableEq

/-- Modelled from the spec: `GameOrchestrator.get_current_phase` is invoked by
the game loop but its body does not appear in the source; the Game Phases
section fixes the phase-range table — reconnaissance for rounds 1-5, initial
access for 6-15, privilege escalation for 16-25, mission completion for
26-30 — and the edge policy that a round number beyond all configured ranges
yields the final configured phase rather than an error. -/
def phase_for (round_number : Nat) : Phase :=
  if round_number ≤ 5 then .reconnaissance
  else if round_number ≤ 15 then .initialAccess
  else if round_number ≤ 25 then .privilegeEscalation
  else .missionCompletion

/-- One observable operation of a `run_game_loop` iteration, tagged with the
round number the iteration works on. -/
inductive LoopStep where
  | redTurn (n : Nat)
  | blueTurn (n : Nat)
  | logRound (n : Nat)
  | evaluateRound (n : Nat)
  | checkGameOver (n : Nat)
deriving Repr, DecidableEq

/-- The body of one `run_game_loop` iteration for round `n`, in source order:
red-team turn, blue-team turn, `db.log_round`, `evaluate_round`,
`check_game_over`. -/
def round_steps (n : Nat) : List LoopStep :=
  [.redTurn n, .blueTurn n, .logRound n, .evaluateRound n, .checkGameOver n]

/-- Recursion core of the loop trace.  The fuel argument is
`max_rounds - round_number`, so `fuel = 0` is exactly the exit condition of
`while self.round_number < max_rounds`; each iteration increments the counter
once at the top, runs the body for the new round, and breaks when
`check_game_over` (abstracted as the `game_over` verdict for that round)
returns true. -/
def game_loop_aux (game_over : Nat → Bool) : Nat → Nat → List LoopStep
  | _, 0 => []
  | rn, fuel + 1 =>
      round_steps (rn + 1) ++
        (if game_over (rn + 1) then [] else game_loop_aux game_over (rn + 1) fuel)

/-- The operation trace of `GameOrchestrator.run_game_loop(max_rounds)`
starting from the current `round_number` (0 for a fresh game). -/
def game_loop_trace (round_number max_rounds : Nat)
    (game_over : Nat → Bool) : List LoopStep :=
  game_loop_aux game_over round_number (max_rounds - round_number)

/-- The round number handed to `db.log_round`, when the step is that call. -/
def log_round_of : LoopStep → Option Nat
  | .logRound n => some n
  | _ => none

/-- The round numbers handed to `db.log_round` along a trace, in order. -/
def logged_rounds (trace : List LoopStep) : List Nat :=
  trace.filterMap log_round_of

/-- The `BLOCKED_COMMANDS` denylist of the Command Safety section:
a destructive wipe, raw disk operations, and a fork bomb. -/
def BLOCKED_COMMANDS : List String :=
  ["rm -rf /", "dd", ":()\x7b :|:& \x7d;:"]

/-- Python's substring test `needle in haystack` on strings. -/
def str_contains (haystack needle : String) : Bool :=
  decide (needle.toList <:+: haystack.toList)

/-- `validate_command(command)`: iterates over `BLOCKED_COMMANDS` and returns
`False` as soon as a blocked fragment occurs in the command, else `True`. -/
def validate_command (command : String) : Bool :=
  BLOCKED_COMMANDS.all (fun blocked => !(str_contains command blocked))

end Icarus

namespace Icarus

theorem award_points_invariant {s : GameState}
    (h : ∀ t, score_of s t = event_sum s t) (team : Team) (points : Int)
    (event_type : String) (round_id : Nat) :
    ∀ t, score_of (award_points s team points event_type round_id) t =
      event_sum (award_points s team points event_type round_id) t := by
  intro t
  have hr := h .red
  have hb := h .blue
  simp only [score_of, event_sum] at hr hb
  cases team <;> cases t <;>
    simp [award_points, record_event, update_score, score_of, event_sum,
      List.filter_append, List.map_append, List.sum_append, hr, hb]

theorem cond_award_invariant {s : GameState}
    (h : ∀ t, score_of s t = event_sum s t) {c : Bool} {team : Team}
    {points : Int} {event_type : String} {round_id : Nat} :
    ∀ t, score_of (if c then award_points s team points event_type round_id
        else s) t =
      event_sum (if c then award_points s team points event_type round_id
        else s) t := by
  intro t
  cases c
  · exact h t
  · exact award_points_invariant h team points event_type round_id t

theorem evaluate_round_invariant {s : GameState}
    (h : ∀ t, score_of s t = event_sum s t) (D : Detectors) (round_id : Nat)
    (r : RedTurnData) (b : BlueTurnData) :
    ∀ t, score_of (evaluate_round D s round_id r b) t =
      event_sum (evaluate_round D s round_id r b) t := by
  simp only [evaluate_round]
  exact cond_award_invariant <| cond_award_invariant <| cond_award_invariant <|
    cond_award_invariant <| cond_award_invariant <| cond_award_invariant h

theorem run_rounds_invariant {s : GameState}
    (h : ∀ t, score_of s t = event_sum s t) (inputs : List RoundInput) :
    ∀ t, score_of (run_rounds s inputs) t = event_sum (run_rounds s inputs) t := by
  induction inputs generalizing s with
  | nil => exact h
  | cons i rest ih =>
      exact ih (evaluate_round_invariant h i.D i.round_id i.red_result i.blue_result)

/-- C2: for every game, after any sequence of evaluated rounds, the cumulative
score stored for a side equals the sum of the point deltas of all event rows
recorded for that side, because `award_points` applies the score update and
records the event row together. -/
theorem cumulative_score_eq_event_sum :
    ∀ (gid : Nat) (inputs : List RoundInput) (t : Team),
      score_of (run_rounds (initial_state gid) inputs) t =
        event_sum (run_rounds (initial_state gid) inputs) t := by
  intro gid inputs
  refine run_rounds_invariant ?_ inputs
  intro t
  cases t <;> rfl

theorem evaluate_round_events (D : Detectors) (s : GameState) (rid : Nat)
    (r : RedTurnData) (b : BlueTurnData) :
    (evaluate_round D s rid r b).events =
      s.events ++ new_events (D.port_scan r) (D.service_identification r)
        (D.shell_access r) (D.attack_blocked b) (D.ip_blocked b)
        (D.service_down b) s.game_id rid := by
  cases h1 : D.port_scan r <;> cases h2 : D.service_identification r <;>
    cases h3 : D.shell_access r <;> cases h4 : D.attack_blocked b <;>
    cases h5 : D.ip_blocked b <;> cases h6 : D.service_down b <;>
    simp [evaluate_round, award_points, record_event, update_score, new_events,
      h1, h2, h3, h4, h5, h6]

theorem new_events_kinds_nodup (b1 b2 b3 b4 b5 b6 : Bool) (gid rid : Nat) :
    ((new_events b1 b2 b3 b4 b5 b6 gid rid).map
      (fun e => e.event_type)).Nodup := by
  cases b1 <;> cases b2 <;> cases b3 <;> cases b4 <;> cases b5 <;> cases b6 <;>
    simp [new_events]

theorem kind_count_le_one (l : List EventRow) (k : String)
    (h : (l.map (fun e => e.event_type)).Nodup) :
    l.countP (fun e => e.event_type == k) ≤ 1 := by
  have hm : l.countP (fun e => e.event_type == k)
      = (l.map (fun e => e.event_type)).count k := by
    rw [List.count, List.countP_map]
    rfl
  rw [hm]
  exact List.nodup_iff_count_le_one.mp h k

/-- C3: within one round, each event kind is awarded at most once for a side —
for every detector outcome the event rows appended by `evaluate_round` contain
any given kind at most once (and exactly once when its detector fires) — while
the same kind is awarded again in a later round when detected again, as two
consecutive all-firing rounds show for `port_scan_complete`. -/
theorem event_kind_once_per_round :
    (∀ (D : Detectors) (s : GameState) (rid : Nat) (r : RedTurnData)
        (b : BlueTurnData) (k : String),
      ((evaluate_round D s rid r b).events.drop s.events.length).countP
        (fun e => e.event_type == k) ≤ 1) ∧
    (∀ (D : Detectors) (s : GameState) (rid : Nat) (r : RedTurnData)
        (b : BlueTurnData),
      ((evaluate_round D s rid r b).events.drop s.events.length).countP
        (fun e => e.event_type == "port_scan_complete") =
        if D.port_scan r then 1 else 0) ∧
    ((evaluate_round all_detect
        (evaluate_round all_detect (initial_state 0) 1 sample_red sample_blue)
        2 sample_red sample_blue).events.countP
      (fun e => e.event_type == "port_scan_complete") = 2) := by
  refine ⟨fun D s rid r b k => ?_, fun D s rid r b => ?_, by decide⟩
  · rw [evaluate_round_events, List.drop_left]
    exact kind_count_le_one _ k (new_events_kinds_nodup _ _ _ _ _ _ _ _)
  · rw [evaluate_round_events, List.drop_left]
    cases h1 : D.port_scan r <;> cases h2 : D.service_identification r <;>
      cases h3 : D.shell_access r <;> cases h4 : D.attack_blocked b <;>
      cases h5 : D.ip_blocked b <;> cases h6 : D.service_down b <;>
      simp [new_events]

/-- C1: the sandbox executor never lets a fault escape: each of the three
failure modes of `execute_in_container` — container not found, exec-transport
error, timeout — is returned as a structured `CommandResult` with the reserved
exit status `-1`, empty stdout, and the error text in stderr. -/
theorem execute_in_container_total_on_faults :
    ∀ (container command msg : String),
      execute_in_container container command (.notFound msg) =
        ⟨-1, "", msg⟩ ∧
      execute_in_container container command (.transportErr msg) =
        ⟨-1, "", msg⟩ ∧
      execute_in_container container command (.timeoutExpired msg) =
        ⟨-1, "", msg⟩ := by
  intro container command msg
  exact ⟨rfl, rfl, rfl⟩

/-- C4: a command whose execution exceeds the timeout yields the reserved
sentinel exit status `-1`, with the process's eventual output discarded
(`stdout = ""`) and the timeout's error text in stderr — never the underlying
program's own exit code. -/
theorem timeout_yields_reserved_status :
    ∀ (container command msg : String),
      (execute_in_container container command (.timeoutExpired msg)).exit_code
          = -1 ∧
      (execute_in_container container command (.timeoutExpired msg)).stdout
          = "" ∧
      (execute_in_container container command (.timeoutExpired msg)).stderr
          = msg := by
  intro container command msg
  exact ⟨rfl, rfl, rfl⟩

/-- C10: a turn's success flag is exactly `exit_code == 0`: the red turn's
flag equals that test on the executed command's result (so the reserved fault
status `-1` is always unsuccessful), and the blue turn's flag is `true` when
the defensive action is the `'none'` sentinel (default result, exit 0) and
otherwise equals the same test on the executed result. -/
theorem success_flag_iff_exit_zero :
    (∀ (obs : String) (d : Decision) (o : ExecOutcome) (t : Nat),
      (execute_red_team_turn obs d o t).success =
        ((execute_in_container "red-kali" d.command o).exit_code == 0)) ∧
    (∀ (obs : String) (d : Decision) (msg : String) (t : Nat),
      (execute_red_team_turn obs d (.timeoutExpired msg) t).success = false) ∧
    (∀ (tel : String) (df : Defense) (o : ExecOutcome) (t : Nat),
      (execute_blue_team_turn tel df o t).success =
        (if df.defensive_action == "none" then true
         else ((execute_in_container "blue-target" df.defensive_action o).exit_code
            == 0))) := by
  refine ⟨fun obs d o t => rfl, fun obs d msg t => rfl, fun tel df o t => ?_⟩
  by_cases h : df.defensive_action == "none" <;>
    simp [execute_blue_team_turn, h, bne]

/-- C8: `phase_for` is a pure, total function of the round number matching
the configured phase-range table — reconnaissance on rounds 1-5, initial
access on 6-15, privilege escalation on 16-25, mission completion on 26-30 —
and every round number beyond all configured ranges still yields the final
configured phase instead of erroring. -/
theorem phase_for_matches_table :
    (∀ n, 1 ≤ n → n ≤ 5 → phase_for n = Phase.reconnaissance) ∧
    (∀ n, 6 ≤ n → n ≤ 15 → phase_for n = Phase.initialAccess) ∧
    (∀ n, 16 ≤ n → n ≤ 25 → phase_for n = Phase.privilegeEscalation) ∧
    (∀ n, 26 ≤ n → n ≤ 30 → phase_for n = Phase.missionCompletion) ∧
    (∀ n, 30 < n → phase_for n = Phase.missionCompletion) := by
  refine ⟨fun n h1 h2 => ?_, fun n h1 h2 => ?_, fun n h1 h2 => ?_,
    fun n h1 h2 => ?_, fun n h1 => ?_⟩ <;>
    simp only [phase_for] <;> split <;> first | rfl | omega | (split <;>
      first | rfl | omega | (split <;> first | rfl | omega))

theorem phase_for_matches_table_witness :
    phase_for 3 = Phase.reconnaissance ∧
    phase_for 10 = Phase.initialAccess ∧
    phase_for 20 = Phase.privilegeEscalation ∧
    phase_for 28 = Phase.missionCompletion ∧
    phase_for 31 = Phase.missionCompletion :=
  ⟨phase_for_matches_table.1 3 (by decide) (by decide),
    phase_for_matches_table.2.1 10 (by decide) (by decide),
    phase_for_matches_table.2.2.1 20 (by decide) (by decide),
    phase_for_matches_table.2.2.2.1 28 (by decide) (by decide),
    phase_for_matches_table.2.2.2.2 31 (by decide)⟩

theorem game_loop_aux_eq (game_over : Nat → Bool) :
    ∀ fuel rn, ∃ k, k ≤ fuel ∧
      game_loop_aux game_over rn fuel =
        ((List.range' (rn + 1) k).map round_steps).flatten := by
  intro fuel
  induction fuel with
  | zero => exact fun rn => ⟨0, le_rfl, rfl⟩
  | succ f ih =>
      intro rn
      cases hg : game_over (rn + 1)
      · obtain ⟨k, hk, heq⟩ := ih (rn + 1)
        refine ⟨k + 1, by omega, ?_⟩
        rw [List.range'_succ, List.map_cons, List.flatten_cons, ← heq]
        simp [game_loop_aux, hg]
      · refine ⟨1, by omega, ?_⟩
        rw [List.range'_succ, List.map_cons, List.flatten_cons]
        simp [game_loop_aux, hg, List.range']

theorem logged_rounds_flatten (a k : Nat) :
    logged_rounds (((List.range' a k).map round_steps).flatten) =
      List.range' a k := by
  induction k generalizing a with
  | zero => rfl
  | succ k ih =>
      rw [List.range'_succ, List.map_cons, List.flatten_cons, logged_rounds,
        List.filterMap_append]
      have h1 : List.filterMap log_round_of (round_steps a) = [a] := rfl
      rw [h1, show List.filterMap log_round_of
          (((List.range' (a + 1) k).map round_steps).flatten) =
        logged_rounds (((List.range' (a + 1) k).map round_steps).flatten)
          from rfl, ih]
      rfl

/-- C7: for every game the persisted round numbers form exactly the
contiguous sequence `1..k` for some final count `k ≤ max_rounds`: the counter
starts at 0, is incremented exactly once at the top of each iteration, each
iteration logs exactly its own round, and the loop runs at most `max_rounds`
iterations — for every game-over behaviour. -/
theorem logged_rounds_contiguous :
    ∀ (max_rounds : Nat) (game_over : Nat → Bool), ∃ k, k ≤ max_rounds ∧
      logged_rounds (game_loop_trace 0 max_rounds game_over) =
        List.range' 1 k := by
  intro max_rounds game_over
  obtain ⟨k, hk, heq⟩ := game_loop_aux_eq game_over (max_rounds - 0) 0
  refine ⟨k, by omega, ?_⟩
  rw [game_loop_trace, heq, logged_rounds_flatten]

/-- C6 counterexample: the loop persists the Round record before the scoring
step, not after it — with `max_rounds = 1` and no game-over, the trace is
explicit and `db.log_round` (position 2) strictly precedes `evaluate_round`
(position 3), so the persisted record cannot already carry the points
finalized by scoring. -/
theorem round_persisted_before_scoring_cex :
    game_loop_trace 0 1 (fun _ => false) =
      [.redTurn 1, .blueTurn 1, .logRound 1, .evaluateRound 1,
        .checkGameOver 1] ∧
    (game_loop_trace 0 1 (fun _ => false))[2]? = some (.logRound 1) ∧
    (game_loop_trace 0 1 (fun _ => false))[3]? = some (.evaluateRound 1) :=
  ⟨rfl, rfl, rfl⟩

/-- C6 amended: in every loop iteration the Round record is handed to the
history sink first and the scoring step runs right after it: every loop trace
is a concatenation of per-round bodies, and within each body `db.log_round`
sits at position 2 and `evaluate_round` at position 3 — the round's points are
recorded afterwards as event rows referencing the persisted round, not
finalized on the Round record before persistence. -/
theorem log_round_precedes_scoring :
    ∀ (max_rounds : Nat) (game_over : Nat → Bool),
      (∃ k, k ≤ max_rounds ∧
        game_loop_trace 0 max_rounds game_over =
          ((List.range' 1 k).map round_steps).flatten) ∧
      ∀ n, (round_steps n)[2]? = some (.logRound n) ∧
        (round_steps n)[3]? = some (.evaluateRound n) := by
  intro max_rounds game_over
  refine ⟨?_, fun n => ⟨rfl, rfl⟩⟩
  obtain ⟨k, hk, heq⟩ := game_loop_aux_eq game_over (max_rounds - 0) 0
  exact ⟨k, by omega, heq⟩

/-- C9: the denylist check is substring containment: `validate_command`
returns `False` exactly when the command contains one of the blocked strings
as a contiguous substring — so a blocked fragment inside a longer benign token
(`"dd"` inside `"useradd bob"`) is rejected, and any command containing no
blocked fragment is accepted. -/
theorem validate_command_iff_blocked_substring :
    (∀ command : String, validate_command command = false ↔
      ∃ b ∈ BLOCKED_COMMANDS, b.toList <:+: command.toList) ∧
    validate_command "useradd bob" = false ∧
    validate_command "ls -la /tmp" = true := by
  refine ⟨fun command => ?_, by decide, by decide⟩
  simp [validate_command, str_contains, List.all_eq_false]

/-- C5 counterexample: the claim fails on the code — `validate_command`
does reject `"rm -rf /"`, but the dispatch path never consults it: given a
transport outcome in which the command ran and exited 0, the red turn reports
the program's own result (`success = true`, exit status 0), not a rejection
`CommandResult` with a dedicated rejection status. -/
theorem denylisted_command_dispatched_cex :
    validate_command "rm -rf /" = false ∧
    execute_red_team_turn "obs"
        ⟨"wipe it", "rm -rf /", some "mission_completion"⟩
        (.success 0 (some "done") none) 7 =
      ⟨"obs", "wipe it", "rm -rf /", "done", true, 7, "mission_completion"⟩ ∧
    (execute_in_container "red-kali" "rm -rf /"
        (.success 0 (some "done") none)).exit_code = 0 := by
  exact ⟨by decide, by decide, rfl⟩

/-- C5 amended: the configured denylist exists as the predicate
`validate_command`, which returns `False` for every denylisted command, but no
caller on the dispatch path invokes it: even when `validate_command` rejects
the decided command, `execute_red_team_turn` dispatches it unchanged and
reports the transport's result, whose own exit status decides the success
flag — no dedicated rejection `CommandResult` is ever produced. -/
theorem denylist_not_enforced_on_dispatch :
    ∀ (obs : String) (d : Decision) (o : ExecOutcome) (t : Nat),
      validate_command d.command = false →
      (execute_red_team_turn obs d o t).success =
          ((execute_in_container "red-kali" d.command o).exit_code == 0) ∧
      (execute_red_team_turn obs d o t).result =
          (execute_in_container "red-kali" d.command o).stdout ++
            (execute_in_container "red-kali" d.command o).stderr := by
  intro obs d o t _
  exact ⟨rfl, rfl⟩

theorem denylist_not_enforced_on_dispatch_witness :
    validate_command "rm -rf /" = false ∧
    ((execute_red_team_turn "o" ⟨"r", "rm -rf /", none⟩
          (.success 0 none none) 3).success =
        ((execute_in_container "red-kali" "rm -rf /"
          (.success 0 none none)).exit_code == 0) ∧
      (execute_red_team_turn "o" ⟨"r", "rm -rf /", none⟩
          (.success 0 none none) 3).result =
        (execute_in_container "red-kali" "rm -rf /"
            (.success 0 none none)).stdout ++
          (execute_in_container "red-kali" "rm -rf /"
            (.success 0 none none)).stderr) :=
  ⟨by decide, denylist_not_enforced_on_dispatch "o" ⟨"r", "rm -rf /", none⟩
    (.success 0 none none) 3 (by decide)⟩

end Icarus
